import Mathlib

/-!
Verification of the chat-establishment and notification handshake of
`src/hooks/data/useCreateMessage.ts` (sleepy.bike).

The four hooks — `useCreateMessage` (MessageAppender),
`useCreateMessageNotification` (NotificationEmitter), `useCreateChat`
(ChatEstablisher) and `useProcessNotification` (NotificationProcessor) —
are shallowly embedded as pure Lean functions.  External collaborators
(the document-store's read-modify-write primitive, the authenticated
fetch, the link-header parser, the uuid generator and the clock) are
passed in as explicit data, matching the interface contracts of the
specification.  Validation failures raised by `throw` in a transform
closure become `Except.error` values; the store applies the transform
atomically, so an erroring transform leaves the document unchanged.
-/

namespace SleepyBike

/-- RDF namespace constants used by the hooks (`utils/rdf-namespaces`,
`rdf-namespaces/dist/solid`). -/
def meetingLongChat : String := "http://www.w3.org/ns/pim/meeting#LongChat"

def aclRead : String := "http://www.w3.org/ns/auth/acl#Read"

def aclWrite : String := "http://www.w3.org/ns/auth/acl#Write"

def aclControl : String := "http://www.w3.org/ns/auth/acl#Control"

def publicTypeIndex : String := "http://www.w3.org/ns/solid/terms#publicTypeIndex"

/-- A chat message (`ChatMessageShape`): `{ id, created, content, maker }`. -/
structure ChatMessage where
  id : String
  created : String
  content : String
  maker : String
  deriving Repr, DecidableEq

/-- One participation entry of a chat (`ChatParticipationShape`):
`{ '@id', dtstart, participant?, references? }`.  `participant` and
`references` are optional in the in-memory LDO object (the code accesses
`p.participant?.['@id']` and guards `participation.references &&
participation.references?.length > 0`), so both are `Option`s here. -/
structure Participation where
  id : String
  dtstart : String
  participant : Option String
  references : Option (List String)
  deriving Repr, DecidableEq

/-- A chat document subject (`ChatShape`): type, author, created, title,
optional participation list, optional message list. -/
structure ChatShape where
  id : String
  type : String
  author : String
  created2 : String
  title : String
  participation : Option (List Participation)
  message : Option (List ChatMessage)
  deriving Repr, DecidableEq

/-- The transform closure passed to `updateChat.mutateAsync` in
`useProcessNotification` (useCreateMessage.ts lines 240–254).  A `throw`
inside the closure becomes `Except.error`; the successful branch returns
the mutated chat.  The JS code mutates the *first* participation entry
found for `otherPerson` (via `Array.prototype.find`), which
`setFirstReference` reproduces. -/
def setFirstReference (otherPerson otherChat : String) : List Participation → List Participation
  | [] => []
  | p :: ps =>
    if p.participant = some otherPerson then
      { p with references := some [otherChat] } :: ps
    else
      p :: setFirstReference otherPerson otherChat ps

def processChatTransform (otherPerson otherChat : String) (ldo : ChatShape) :
    Except String ChatShape :=
  match ldo.participation with
  | none => .error "no participation"
  | some ps =>
    if ps.length > 2 then
      .error "too much participation (only 2 people supported!)"
    else
      match ps.find? (fun p => p.participant = some otherPerson) with
      | none => .error "other person's participation not found"
      | some p =>
        if (p.references.getD []).length > 0 then
          .error "participation alread references some other chat"
        else
          .ok { ldo with participation := some (setFirstReference otherPerson otherChat ps) }

/-- Errors surfaced by a run of the NotificationProcessor: a validation
error thrown by the transform, or a transport error from the store. -/
inductive RunError where
  | validation (msg : String)
  | transport
  deriving Repr, DecidableEq

/-- Observable outcome of one run of `useProcessNotification`: the chat
document afterwards, whether the notification document still exists,
whether `deleteNotification.mutateAsync` was invoked at all, and the
surfaced error (if any). -/
structure ProcessResult where
  chat : ChatShape
  notificationExists : Bool
  deleteInvoked : Bool
  error : Option RunError
  deriving Repr, DecidableEq

/-- One run of `useProcessNotification` (useCreateMessage.ts lines
237–257).  `updateTransportOk` models whether the chat read-modify-write
reaches the store and persists (a transport failure surfaces before the
transform's effect is persisted).  The notification is deleted only by
the final `deleteNotification.mutateAsync` call, which is reached only
when the awaited chat update succeeded. -/
def processNotificationRun (updateTransportOk : Bool) (otherPerson otherChat : String)
    (chat : ChatShape) : ProcessResult :=
  if updateTransportOk = false then
    { chat := chat, notificationExists := true, deleteInvoked := false,
      error := some .transport }
  else
    match processChatTransform otherPerson otherChat chat with
    | .error m =>
      { chat := chat, notificationExists := true, deleteInvoked := false,
        error := some (.validation m) }
    | .ok chat' =>
      { chat := chat', notificationExists := false, deleteInvoked := true,
        error := none }

/-- The notification activity document (`MessageActivityShape`) built by
`useCreateMessageNotification` (useCreateMessage.ts lines 77–92). -/
structure MessageActivity where
  id : String
  type : List String
  actor : String
  context : String
  object : String
  target : String
  updated : String
  deriving Repr, DecidableEq

/-- One call to the document-creation collaborator
(`useCreateRdfDocument(...).mutateAsync`), recording the target uri, the
HTTP method, and the document data. -/
structure CreateCall (α : Type) where
  uri : String
  method : String
  data : α
  deriving Repr, DecidableEq

/-- `useCreateMessageNotification` (useCreateMessage.ts lines 60–96):
issues exactly one create call, a POST of the activity document to the
inbox. -/
def useCreateMessageNotification (inbox senderId messageId chatId updated : String) :
    List (CreateCall MessageActivity) :=
  [{ uri := inbox,
     method := "POST",
     data :=
      { id := ""
        type := ["Add"]
        actor := senderId
        context := "https://www.pod-chat.com/LongChatMessage"
        object := messageId
        target := chatId
        updated := updated } }]

/-- A WAC access-authorization entry (`AuthorizationShape`):
`{ '@id', type, agent, accessTo, default, mode }`. -/
structure Authorization where
  id : String
  type : String
  agent : List String
  accessTo : List String
  default : String
  mode : List String
  deriving Repr, DecidableEq

/-- A type registration inside a type index (`TypeRegistration`):
`{ '@id', type, forClass, instance? }`. -/
structure TypeRegistration where
  id : String
  type : String
  forClass : List String
  instances : Option (List String)
  deriving Repr, DecidableEq

/-- A private type index document subject: its `references` list of type
registrations (optional, as in the LDO object). -/
structure PrivateTypeIndex where
  id : String
  references : Option (List TypeRegistration)
  deriving Repr, DecidableEq

/-- Predicate of the `find` in the type-index transform
(useCreateMessage.ts lines 186–190): a registration whose `forClass`
contains `meeting.LongChat` or the short name `LongChat`. -/
def isLongChatRegistration (r : TypeRegistration) : Bool :=
  r.forClass.any (fun fc => fc = meetingLongChat || fc = "LongChat")

/-- Appends `chatId` to the `instance` list (initializing it if absent)
of the first registration matching `isLongChatRegistration`; the JS code
mutates the object returned by `find` in place. -/
def appendInstanceFirst (chatId : String) : List TypeRegistration → List TypeRegistration
  | [] => []
  | r :: rs =>
    if isLongChatRegistration r then
      { r with instances := some ((r.instances.getD []) ++ [chatId]) } :: rs
    else
      r :: appendInstanceFirst chatId rs

/-- The transform closure passed to `updatePrivateMutation.mutateAsync`
in `useCreateChat` (useCreateMessage.ts lines 184–204): find-or-create
the LongChat type registration and record the new chat id. -/
def updateTypeIndexTransform (chatId regUuid : String) (ldo : PrivateTypeIndex) :
    PrivateTypeIndex :=
  match (ldo.references.getD []).find? isLongChatRegistration with
  | some _ =>
    { ldo with references := some (appendInstanceFirst chatId (ldo.references.getD [])) }
  | none =>
    { ldo with references := some ((ldo.references.getD []) ++
        [{ id := publicTypeIndex ++ "#" ++ regUuid
           type := "TypeRegistration"
           forClass := ["LongChat"]
           instances := some [chatId] }]) }

/-- The chat document created by `useCreateChat` (useCreateMessage.ts
lines 123–145): LongChat typed, authored by `me`, titled "Hospex chat
channel", with two participation entries — `me`'s carries no
`references` field at all, `otherPerson`'s carries `[otherChat]` when
`otherChat` is supplied and `[]` otherwise. -/
def newChatDocument (me otherPerson : String) (otherChat : Option String)
    (chatFile chatId date uuidMe uuidOther : String) : ChatShape :=
  { id := chatId
    type := "LongChat"
    author := me
    created2 := date
    title := "Hospex chat channel"
    participation := some
      [ { id := chatFile ++ "#" ++ uuidMe
          dtstart := date
          participant := some me
          references := none }
      , { id := chatFile ++ "#" ++ uuidOther
          dtstart := date
          participant := some otherPerson
          references := some (match otherChat with
            | some oc => [oc]
            | none => []) } ]
    message := none }

/-- The two access-authorization entries created on the discovered ACL
resource by `useCreateChat` (useCreateMessage.ts lines 154–178). -/
def newAclEntries (me otherPerson chatContainer aclUri : String) : List Authorization :=
  [ { id := aclUri ++ "#ReadWriteControl"
      type := "Authorization"
      agent := [me]
      accessTo := [chatContainer]
      default := chatContainer
      mode := [aclRead, aclWrite, aclControl] }
  , { id := aclUri ++ "#Read"
      type := "Authorization"
      agent := [otherPerson]
      accessTo := [chatContainer]
      default := chatContainer
      mode := [aclRead] } ]

/-- Observable outcome of one run of `useCreateChat`: which documents
were created or updated, the returned triple, and the surfaced error.
`aclDoc` and `newTypeIndex` are `none` when the corresponding external
call was never executed. -/
structure EstablishResult where
  chatDoc : Option ChatShape
  aclDoc : Option (List Authorization)
  newTypeIndex : Option PrivateTypeIndex
  returned : Option (String × String × String)
  error : Option String
  deriving Repr, DecidableEq

/-- One run of `useCreateChat` (useCreateMessage.ts lines 102–207).
`aclLink` is the `acl` link relation parsed from the HEAD response on
the new chat container (`links?.acl?.url`); when it is `none` the run
throws "We could not find WAC link for a given resource" before the ACL
creation and the type-index update.  `uuidChat`, `uuidMe`, `uuidOther`,
`uuidReg` are the four fresh uuids drawn in source order; `typeIndex` is
the current private type index document. -/
def useCreateChat (me otherPerson : String) (otherChat : Option String)
    (hospexContainer : String) (aclLink : Option String)
    (typeIndex : PrivateTypeIndex)
    (uuidChat uuidMe uuidOther uuidReg date : String) : EstablishResult :=
  let chatContainer := hospexContainer ++ "messages/" ++ uuidChat ++ "/"
  let chatFile := chatContainer ++ "index.ttl"
  let chatId := chatFile ++ "#this"
  let chatDoc := newChatDocument me otherPerson otherChat chatFile chatId date uuidMe uuidOther
  match aclLink with
  | none =>
    { chatDoc := some chatDoc
      aclDoc := none
      newTypeIndex := none
      returned := none
      error := some "We could not find WAC link for a given resource" }
  | some aclUri =>
    { chatDoc := some chatDoc
      aclDoc := some (newAclEntries me otherPerson chatContainer aclUri)
      newTypeIndex := some (updateTypeIndexTransform chatId uuidReg typeIndex)
      returned := some (chatContainer, chatFile, chatId)
      error := none }

/-- Modelled from the spec: `getContainer` (from `utils/helpers`, not
under `src/`) returns the container of a URI — everything up to and
including the final `/`. -/
def getContainer (uri : String) : String :=
  ⟨(uri.data.reverse.dropWhile (fun c => c ≠ '/')).reverse⟩

/-- A calendar date, as delivered by the clock collaborator. -/
structure CalDate where
  year : Nat
  month : Nat
  day : Nat
  deriving Repr, DecidableEq

/-- Modelled from the spec: the clock collaborator's
`dayjs().format('YYYY/MM/DD')` — the current calendar date rendered as
zero-padded `YYYY/MM/DD`. -/
def pad2 (n : Nat) : List Char :=
  [Nat.digitChar (n / 10 % 10), Nat.digitChar (n % 10)]

def pad4 (n : Nat) : List Char :=
  [Nat.digitChar (n / 1000 % 10), Nat.digitChar (n / 100 % 10),
   Nat.digitChar (n / 10 % 10), Nat.digitChar (n % 10)]

def formatDate (d : CalDate) : String :=
  ⟨pad4 d.year ++ '/' :: pad2 d.month ++ '/' :: pad2 d.day⟩

/-- The day-bucketed log document URI computed by `useCreateMessage`
(useCreateMessage.ts lines 35–36):
`getContainer(chat) ++ date.format('YYYY/MM/DD') ++ "/chat.ttl"`. -/
def chatFileUri (chat : String) (d : CalDate) : String :=
  getContainer chat ++ formatDate d ++ "/chat.ttl"

/-- The generated message identifier (useCreateMessage.ts line 37):
the log document path followed by `#msg-<uuid>`. -/
def messageIdOf (chat : String) (d : CalDate) (uuid : String) : String :=
  chatFileUri chat d ++ "#msg-" ++ uuid

/-! ## Theorems -/

/-- C1: if the participation entry located for `otherPerson` already has
a non-empty references list, the NotificationProcessor run fails with
the "already references" validation error, the chat is left unchanged
(no field mutated), the notification still exists and its delete is
never invoked — so a reference transitions from empty to `[otherChat]`
at most once. -/
theorem processNotification_already_references (otherPerson otherChat : String)
    (chat : ChatShape) (ps : List Participation) (p : Participation)
    (hps : chat.participation = some ps)
    (hlen : ps.length ≤ 2)
    (hfind : ps.find? (fun q => q.participant = some otherPerson) = some p)
    (hrefs : (p.references.getD []).length > 0) :
    processNotificationRun true otherPerson otherChat chat =
      { chat := chat, notificationExists := true, deleteInvoked := false,
        error := some (RunError.validation
          "participation alread references some other chat") } := by
  unfold processNotificationRun processChatTransform
  rw [hps]
  simp [Nat.not_lt.mpr hlen, hfind, hrefs]

/-- Witness for C1 at a concrete chat whose entry for "bob" already
references a chat. -/
theorem processNotification_already_references_witness :
    processNotificationRun true "bob" "https://b.example/chat#this"
      { id := "https://a.example/chat#this", type := "LongChat",
        author := "alice", created2 := "2024-01-01", title := "Hospex chat channel",
        participation := some
          [ { id := "pa", dtstart := "2024-01-01", participant := some "alice",
              references := none }
          , { id := "pb", dtstart := "2024-01-01", participant := some "bob",
              references := some ["https://old.example/chat#this"] } ],
        message := none } =
      { chat :=
          { id := "https://a.example/chat#this", type := "LongChat",
            author := "alice", created2 := "2024-01-01", title := "Hospex chat channel",
            participation := some
              [ { id := "pa", dtstart := "2024-01-01", participant := some "alice",
                  references := none }
              , { id := "pb", dtstart := "2024-01-01", participant := some "bob",
                  references := some ["https://old.example/chat#this"] } ],
            message := none },
        notificationExists := true, deleteInvoked := false,
        error := some (RunError.validation
          "participation alread references some other chat") } :=
  processNotification_already_references "bob" "https://b.example/chat#this" _ _
    { id := "pb", dtstart := "2024-01-01", participant := some "bob",
      references := some ["https://old.example/chat#this"] }
    rfl (by decide) (by simp) (by simp)

/-- C2: in every run of the NotificationProcessor, the notification is
deleted only after the chat update succeeded — whenever the run surfaces
an error (any validation error or a transport error), the delete of the
notification is never invoked and the notification document still
exists. -/
theorem processNotification_delete_only_after_success (t : Bool)
    (otherPerson otherChat : String) (chat : ChatShape)
    (h : (processNotificationRun t otherPerson otherChat chat).error ≠ none) :
    (processNotificationRun t otherPerson otherChat chat).deleteInvoked = false ∧
    (processNotificationRun t otherPerson otherChat chat).notificationExists = true := by
  cases hE : processChatTransform otherPerson otherChat chat with
  | error m => cases t <;> simp [processNotificationRun, hE]
  | ok chat' =>
    cases t with
    | false => simp [processNotificationRun]
    | true => exact absurd (by simp [processNotificationRun, hE]) h

/-- Witness for C2: a transport failure on the chat update leaves the
notification untouched. -/
theorem processNotification_delete_only_after_success_witness :
    (processNotificationRun false "bob" "c"
        { id := "c0", type := "LongChat", author := "a", created2 := "d",
          title := "t", participation := none, message := none }).error ≠ none ∧
    (processNotificationRun false "bob" "c"
        { id := "c0", type := "LongChat", author := "a", created2 := "d",
          title := "t", participation := none, message := none }).deleteInvoked = false ∧
    (processNotificationRun false "bob" "c"
        { id := "c0", type := "LongChat", author := "a", created2 := "d",
          title := "t", participation := none, message := none }).notificationExists = true :=
  ⟨by simp [processNotificationRun],
   processNotification_delete_only_after_success false "bob" "c"
     { id := "c0", type := "LongChat", author := "a", created2 := "d",
       title := "t", participation := none, message := none }
     (by simp [processNotificationRun])⟩

/-! Helper lemmas computing `processChatTransform` on each guard
outcome, shared by the claim theorems below. -/

theorem transform_eq_no_participation (otherPerson otherChat : String) (chat : ChatShape)
    (h : chat.participation = none) :
    processChatTransform otherPerson otherChat chat = .error "no participation" := by
  unfold processChatTransform
  rw [h]

theorem transform_eq_too_much (otherPerson otherChat : String) (chat : ChatShape)
    (ps : List Participation) (h : chat.participation = some ps) (hl : ps.length > 2) :
    processChatTransform otherPerson otherChat chat =
      .error "too much participation (only 2 people supported!)" := by
  unfold processChatTransform
  rw [h]
  simp [hl]

theorem transform_eq_not_found (otherPerson otherChat : String) (chat : ChatShape)
    (ps : List Participation) (h : chat.participation = some ps) (hl : ps.length ≤ 2)
    (hf : ps.find? (fun q => q.participant = some otherPerson) = none) :
    processChatTransform otherPerson otherChat chat =
      .error "other person's participation not found" := by
  unfold processChatTransform
  rw [h]
  simp [Nat.not_lt.mpr hl, hf]

theorem transform_eq_conflict (otherPerson otherChat : String) (chat : ChatShape)
    (ps : List Participation) (p : Participation)
    (h : chat.participation = some ps) (hl : ps.length ≤ 2)
    (hf : ps.find? (fun q => q.participant = some otherPerson) = some p)
    (hr : (p.references.getD []).length > 0) :
    processChatTransform otherPerson otherChat chat =
      .error "participation alread references some other chat" := by
  unfold processChatTransform
  rw [h]
  simp [Nat.not_lt.mpr hl, hf, hr]

theorem transform_eq_ok (otherPerson otherChat : String) (chat : ChatShape)
    (ps : List Participation) (p : Participation)
    (h : chat.participation = some ps) (hl : ps.length ≤ 2)
    (hf : ps.find? (fun q => q.participant = some otherPerson) = some p)
    (hr : p.references.getD [] = []) :
    processChatTransform otherPerson otherChat chat =
      .ok { chat with participation := some (setFirstReference otherPerson otherChat ps) } := by
  unfold processChatTransform
  rw [h]
  simp [Nat.not_lt.mpr hl, hf, hr]

/-- `Array.prototype.find` followed by an in-place mutation of the found
entry: the list splits at the first entry whose participant is
`otherPerson`, and `setFirstReference` rewrites exactly that entry. -/
theorem setFirstReference_split (otherPerson otherChat : String)
    (ps : List Participation) (p : Participation)
    (hf : ps.find? (fun q => q.participant = some otherPerson) = some p) :
    ∃ l₁ l₂, ps = l₁ ++ p :: l₂ ∧
      (∀ q ∈ l₁, ¬ q.participant = some otherPerson) ∧
      setFirstReference otherPerson otherChat ps =
        l₁ ++ { p with references := some [otherChat] } :: l₂ := by
  induction ps with
  | nil => simp at hf
  | cons a as ih =>
    by_cases ha : a.participant = some otherPerson
    · simp [List.find?, ha] at hf
      subst hf
      exact ⟨[], as, rfl, by simp, by simp [setFirstReference, ha]⟩
    · simp [List.find?, ha] at hf
      obtain ⟨l₁, l₂, hsplit, hnone, hset⟩ := ih hf
      exact ⟨a :: l₁, l₂, by simp [hsplit], by simpa [ha] using hnone,
        by simp [setFirstReference, ha, hset]⟩

/-- C3: exact characterization of the NotificationProcessor's chat
mutation.  It fails "no participation" iff the chat has no participation
list; fails "too much participation" iff the (present) list has more
than 2 entries; fails "other person's participation not found" iff the
guards before it pass and no entry's participant equals `otherPerson`;
when the located entry has an empty (or absent) reference list it
succeeds, setting exactly that entry's references to `[otherChat]`; and
a chat with more than 2 participation entries is never mutated. -/
theorem processChatTransform_characterization (otherPerson otherChat : String)
    (chat : ChatShape) :
    (processChatTransform otherPerson otherChat chat = .error "no participation" ↔
      chat.participation = none) ∧
    (processChatTransform otherPerson otherChat chat =
        .error "too much participation (only 2 people supported!)" ↔
      ∃ ps, chat.participation = some ps ∧ ps.length > 2) ∧
    (processChatTransform otherPerson otherChat chat =
        .error "other person's participation not found" ↔
      ∃ ps, chat.participation = some ps ∧ ps.length ≤ 2 ∧
        ps.find? (fun q => q.participant = some otherPerson) = none) ∧
    (∀ ps p, chat.participation = some ps → ps.length ≤ 2 →
      ps.find? (fun q => q.participant = some otherPerson) = some p →
      p.references.getD [] = [] →
      ∃ l₁ l₂, ps = l₁ ++ p :: l₂ ∧
        processChatTransform otherPerson otherChat chat =
          .ok { chat with
            participation := some (l₁ ++ { p with references := some [otherChat] } :: l₂) }) ∧
    (∀ ps, chat.participation = some ps → ps.length > 2 →
      ∀ c, processChatTransform otherPerson otherChat chat ≠ .ok c) := by
  have hforward : ∀ ps p, chat.participation = some ps → ps.length ≤ 2 →
      ps.find? (fun q => q.participant = some otherPerson) = some p →
      p.references.getD [] = [] →
      ∃ l₁ l₂, ps = l₁ ++ p :: l₂ ∧
        processChatTransform otherPerson otherChat chat =
          .ok { chat with
            participation := some (l₁ ++ { p with references := some [otherChat] } :: l₂) } := by
    intro ps p hps hl hf hr
    obtain ⟨l₁, l₂, hsplit, _, hset⟩ := setFirstReference_split otherPerson otherChat ps p hf
    exact ⟨l₁, l₂, hsplit, by rw [transform_eq_ok otherPerson otherChat chat ps p hps hl hf hr, hset]⟩
  refine ⟨?_, ?_, ?_, hforward, ?_⟩
  · constructor
    · intro h
      cases hps : chat.participation with
      | none => rfl
      | some ps =>
        exfalso
        by_cases hl : ps.length > 2
        · rw [transform_eq_too_much otherPerson otherChat chat ps hps hl] at h
          simp at h
        · cases hf : ps.find? (fun q => q.participant = some otherPerson) with
          | none =>
            rw [transform_eq_not_found otherPerson otherChat chat ps hps (Nat.not_lt.mp hl) hf] at h
            simp at h
          | some p =>
            by_cases hr : (p.references.getD []).length > 0
            · rw [transform_eq_conflict otherPerson otherChat chat ps p hps (Nat.not_lt.mp hl) hf hr] at h
              simp at h
            · rw [transform_eq_ok otherPerson otherChat chat ps p hps (Nat.not_lt.mp hl) hf
                (List.eq_nil_of_length_eq_zero (Nat.eq_zero_of_not_pos hr))] at h
              simp at h
    · intro h
      exact transform_eq_no_participation otherPerson otherChat chat h
  · constructor
    · intro h
      cases hps : chat.participation with
      | none =>
        exfalso
        rw [transform_eq_no_participation otherPerson otherChat chat hps] at h
        simp at h
      | some ps =>
        refine ⟨ps, rfl, ?_⟩
        by_contra hl
        have hl' := Nat.not_lt.mp hl
        cases hf : ps.find? (fun q => q.participant = some otherPerson) with
        | none =>
          rw [transform_eq_not_found otherPerson otherChat chat ps hps hl' hf] at h
          simp at h
        | some p =>
          by_cases hr : (p.references.getD []).length > 0
          · rw [transform_eq_conflict otherPerson otherChat chat ps p hps hl' hf hr] at h
            simp at h
          · rw [transform_eq_ok otherPerson otherChat chat ps p hps hl' hf
              (List.eq_nil_of_length_eq_zero (Nat.eq_zero_of_not_pos hr))] at h
            simp at h
    · rintro ⟨ps, hps, hl⟩
      exact transform_eq_too_much otherPerson otherChat chat ps hps hl
  · constructor
    · intro h
      cases hps : chat.participation with
      | none =>
        exfalso
        rw [transform_eq_no_participation otherPerson otherChat chat hps] at h
        simp at h
      | some ps =>
        by_cases hl : ps.length > 2
        · exfalso
          rw [transform_eq_too_much otherPerson otherChat chat ps hps hl] at h
          simp at h
        · have hl' := Nat.not_lt.mp hl
          refine ⟨ps, rfl, hl', ?_⟩
          cases hf : ps.find? (fun q => q.participant = some otherPerson) with
          | none => rfl
          | some p =>
            exfalso
            by_cases hr : (p.references.getD []).length > 0
            · rw [transform_eq_conflict otherPerson otherChat chat ps p hps hl' hf hr] at h
              simp at h
            · rw [transform_eq_ok otherPerson otherChat chat ps p hps hl' hf
                (List.eq_nil_of_length_eq_zero (Nat.eq_zero_of_not_pos hr))] at h
              simp at h
    · rintro ⟨ps, hps, hl, hf⟩
      exact transform_eq_not_found otherPerson otherChat chat ps hps hl hf
  · intro ps hps hl c
    rw [transform_eq_too_much otherPerson otherChat chat ps hps hl]
    simp

/-- Witness for C3: concrete instances of both the "no participation"
failure and the successful linking branch. -/
theorem processChatTransform_characterization_witness :
    processChatTransform "bob" "oc"
      { id := "c0", type := "LongChat", author := "a", created2 := "d",
        title := "t", participation := none, message := none } =
      .error "no participation" ∧
    processChatTransform "bob" "oc"
      { id := "c0", type := "LongChat", author := "a", created2 := "d",
        title := "t",
        participation := some
          [ { id := "pb", dtstart := "d", participant := some "bob",
              references := some [] } ],
        message := none } =
      .ok { id := "c0", type := "LongChat", author := "a", created2 := "d",
            title := "t",
            participation := some
              [ { id := "pb", dtstart := "d", participant := some "bob",
                  references := some ["oc"] } ],
            message := none } := by
  constructor
  · exact (processChatTransform_characterization "bob" "oc"
      { id := "c0", type := "LongChat", author := "a", created2 := "d",
        title := "t", participation := none, message := none }).1.mpr rfl
  · obtain ⟨l₁, l₂, hsplit, hok⟩ :=
      (processChatTransform_characterization "bob" "oc"
        { id := "c0", type := "LongChat", author := "a", created2 := "d",
          title := "t",
          participation := some
            [ { id := "pb", dtstart := "d", participant := some "bob",
                references := some [] } ],
          message := none }).2.2.2.1
        [ { id := "pb", dtstart := "d", participant := some "bob",
            references := some [] } ]
        { id := "pb", dtstart := "d", participant := some "bob",
          references := some [] }
        rfl (by decide) (by simp) rfl
    have h1 : l₁ = [] := by
      cases l₁ with
      | nil => rfl
      | cons x xs => simp at hsplit
    have h2 : l₂ = [] := by
      subst h1
      simpa using hsplit.symm
    subst h1; subst h2
    simpa using hok

/-- C10: a participation entry whose `references` field is entirely
absent is treated like one with an empty references list — the "already
references" failure needs an existing non-empty list, so linking
succeeds on an entry that never had a `references` field. -/
theorem processChatTransform_absent_references (otherPerson otherChat : String)
    (chat : ChatShape) (ps : List Participation) (p : Participation)
    (hps : chat.participation = some ps)
    (hlen : ps.length ≤ 2)
    (hfind : ps.find? (fun q => q.participant = some otherPerson) = some p)
    (habsent : p.references = none) :
    processChatTransform otherPerson otherChat chat =
      .ok { chat with participation := some (setFirstReference otherPerson otherChat ps) } := by
  unfold processChatTransform
  rw [hps]
  simp [Nat.not_lt.mpr hlen, hfind, habsent]

/-- Witness for C10: linking succeeds on a concrete entry with no
`references` field. -/
theorem processChatTransform_absent_references_witness :
    processChatTransform "bob" "https://b.example/chat#this"
      { id := "c", type := "LongChat", author := "alice", created2 := "d",
        title := "t",
        participation := some
          [ { id := "pa", dtstart := "d", participant := some "alice",
              references := none }
          , { id := "pb", dtstart := "d", participant := some "bob",
              references := none } ],
        message := none } =
      .ok { id := "c", type := "LongChat", author := "alice", created2 := "d",
            title := "t",
            participation := some
              [ { id := "pa", dtstart := "d", participant := some "alice",
                  references := none }
              , { id := "pb", dtstart := "d", participant := some "bob",
                  references := some ["https://b.example/chat#this"] } ],
            message := none } := by
  have h := processChatTransform_absent_references "bob" "https://b.example/chat#this"
    { id := "c", type := "LongChat", author := "alice", created2 := "d",
      title := "t",
      participation := some
        [ { id := "pa", dtstart := "d", participant := some "alice",
            references := none }
        , { id := "pb", dtstart := "d", participant := some "bob",
            references := none } ],
      message := none }
    _ { id := "pb", dtstart := "d", participant := some "bob", references := none }
    rfl (by decide) (by simp) rfl
  simpa [setFirstReference] using h

/-- C4: when the HEAD request on the new chat container yields no `acl`
link relation, `useCreateChat` throws "We could not find WAC link for a
given resource" and neither the access-authorization creation nor the
private-type-index update is executed in that run. -/
theorem useCreateChat_no_acl_link (me otherPerson : String) (otherChat : Option String)
    (hospexContainer : String) (typeIndex : PrivateTypeIndex)
    (uuidChat uuidMe uuidOther uuidReg date : String) :
    (useCreateChat me otherPerson otherChat hospexContainer none typeIndex
        uuidChat uuidMe uuidOther uuidReg date).error =
      some "We could not find WAC link for a given resource" ∧
    (useCreateChat me otherPerson otherChat hospexContainer none typeIndex
        uuidChat uuidMe uuidOther uuidReg date).aclDoc = none ∧
    (useCreateChat me otherPerson otherChat hospexContainer none typeIndex
        uuidChat uuidMe uuidOther uuidReg date).newTypeIndex = none ∧
    (useCreateChat me otherPerson otherChat hospexContainer none typeIndex
        uuidChat uuidMe uuidOther uuidReg date).returned = none :=
  ⟨rfl, rfl, rfl, rfl⟩

/-- C5: every run of `useCreateChat` creates the chat document with
type LongChat, author `me`, created = the current timestamp, title
"Hospex chat channel", and exactly two participation entries: `me`'s
with no `references` field at all, and `otherPerson`'s whose references
are `[otherChat]` when `otherChat` is supplied and `[]` when it is not
(so with no `otherChat`, both entries' reference lists are empty). -/
theorem useCreateChat_chat_document (me otherPerson : String) (otherChat : Option String)
    (hospexContainer : String) (aclLink : Option String) (typeIndex : PrivateTypeIndex)
    (uuidChat uuidMe uuidOther uuidReg date : String) :
    (useCreateChat me otherPerson otherChat hospexContainer aclLink typeIndex
        uuidChat uuidMe uuidOther uuidReg date).chatDoc =
      some
        { id := hospexContainer ++ "messages/" ++ uuidChat ++ "/" ++ "index.ttl" ++ "#this"
          type := "LongChat"
          author := me
          created2 := date
          title := "Hospex chat channel"
          participation := some
            [ { id := hospexContainer ++ "messages/" ++ uuidChat ++ "/" ++ "index.ttl"
                       ++ "#" ++ uuidMe
                dtstart := date
                participant := some me
                references := none }
            , { id := hospexContainer ++ "messages/" ++ uuidChat ++ "/" ++ "index.ttl"
                       ++ "#" ++ uuidOther
                dtstart := date
                participant := some otherPerson
                references := some (match otherChat with
                  | some oc => [oc]
                  | none => []) } ]
          message := none } := by
  cases aclLink <;> rfl

/-- C8: on a successful run (the ACL link was discovered), exactly two
access-authorization entries are created on the discovered ACL resource:
agent `[me]` with modes Read, Write, Control, and agent `[otherPerson]`
with mode Read only, both with `accessTo` and `default` set to the new
chat container. -/
theorem useCreateChat_acl_entries (me otherPerson : String) (otherChat : Option String)
    (hospexContainer aclUri : String) (typeIndex : PrivateTypeIndex)
    (uuidChat uuidMe uuidOther uuidReg date : String) :
    (useCreateChat me otherPerson otherChat hospexContainer (some aclUri) typeIndex
        uuidChat uuidMe uuidOther uuidReg date).aclDoc =
      some
        [ { id := aclUri ++ "#ReadWriteControl"
            type := "Authorization"
            agent := [me]
            accessTo := [hospexContainer ++ "messages/" ++ uuidChat ++ "/"]
            default := hospexContainer ++ "messages/" ++ uuidChat ++ "/"
            mode := [aclRead, aclWrite, aclControl] }
        , { id := aclUri ++ "#Read"
            type := "Authorization"
            agent := [otherPerson]
            accessTo := [hospexContainer ++ "messages/" ++ uuidChat ++ "/"]
            default := hospexContainer ++ "messages/" ++ uuidChat ++ "/"
            mode := [aclRead] } ] ∧
    (useCreateChat me otherPerson otherChat hospexContainer (some aclUri) typeIndex
        uuidChat uuidMe uuidOther uuidReg date).error = none :=
  ⟨rfl, rfl⟩

/-- C9: `useCreateMessageNotification` issues exactly one document
creation, an HTTP POST to the inbox, whose activity document has
type Add, actor = senderId, object = messageId, target = chatId, and
the given `updated` timestamp. -/
theorem useCreateMessageNotification_spec (inbox senderId messageId chatId updated : String) :
    useCreateMessageNotification inbox senderId messageId chatId updated =
      [{ uri := inbox
         method := "POST"
         data :=
          { id := ""
            type := ["Add"]
            actor := senderId
            context := "https://www.pod-chat.com/LongChatMessage"
            object := messageId
            target := chatId
            updated := updated } }] :=
  rfl

/-! Helper lemmas for the type-index transform. -/

theorem find?_append_cons {α : Type} (p : α → Bool) (l₁ l₂ : List α) (r : α)
    (h1 : ∀ q ∈ l₁, ¬ p q = true) (h2 : p r = true) :
    (l₁ ++ r :: l₂).find? p = some r := by
  induction l₁ with
  | nil => simp [List.find?, h2]
  | cons a as ih =>
    have ha : p a = false := by simpa using h1 a (by simp)
    simp only [List.cons_append, List.find?, ha]
    exact ih (fun q hq => h1 q (by simp [hq]))

theorem appendInstanceFirst_append (chatId : String) (l₁ l₂ : List TypeRegistration)
    (r : TypeRegistration)
    (h1 : ∀ q ∈ l₁, ¬ isLongChatRegistration q = true)
    (h2 : isLongChatRegistration r = true) :
    appendInstanceFirst chatId (l₁ ++ r :: l₂) =
      l₁ ++ { r with instances := some ((r.instances.getD []) ++ [chatId]) } :: l₂ := by
  induction l₁ with
  | nil => simp [appendInstanceFirst, h2]
  | cons a as ih =>
    have ha : isLongChatRegistration a = false := by simpa using h1 a (by simp)
    simp [appendInstanceFirst, ha, ih (fun q hq => h1 q (by simp [hq]))]

/-- C7: the private-type-index transform of `useCreateChat`.  When a
registration whose `forClass` matches the chat's class already exists
(first match), the new chat id is appended to that registration's
instance list (initializing the list if absent) and no new registration
is added; otherwise exactly one new registration with
`forClass=[LongChat]` and `instance=[chat id]` is appended to the
index's references. -/
theorem updateTypeIndexTransform_spec (chatId regUuid : String) (ldo : PrivateTypeIndex) :
    (∀ l₁ r l₂, ldo.references.getD [] = l₁ ++ r :: l₂ →
      (∀ q ∈ l₁, ¬ isLongChatRegistration q = true) →
      isLongChatRegistration r = true →
      (updateTypeIndexTransform chatId regUuid ldo).references =
        some (l₁ ++ { r with instances := some ((r.instances.getD []) ++ [chatId]) } :: l₂)) ∧
    ((ldo.references.getD []).find? isLongChatRegistration = none →
      (updateTypeIndexTransform chatId regUuid ldo).references =
        some ((ldo.references.getD []) ++
          [{ id := publicTypeIndex ++ "#" ++ regUuid
             type := "TypeRegistration"
             forClass := ["LongChat"]
             instances := some [chatId] }])) := by
  constructor
  · intro l₁ r l₂ hsplit h1 h2
    unfold updateTypeIndexTransform
    rw [hsplit, find?_append_cons isLongChatRegistration l₁ l₂ r h1 h2]
    rw [appendInstanceFirst_append chatId l₁ l₂ r h1 h2]
  · intro hnone
    unfold updateTypeIndexTransform
    rw [hnone]

/-- Witness for C7: both branches at concrete type indexes. -/
theorem updateTypeIndexTransform_spec_witness :
    (updateTypeIndexTransform "chat1" "u"
        { id := "idx",
          references := some
            [ { id := "r0", type := "TypeRegistration",
                forClass := ["LongChat"], instances := some ["chat0"] } ] }).references =
      some
        [ { id := "r0", type := "TypeRegistration",
            forClass := ["LongChat"], instances := some ["chat0", "chat1"] } ] ∧
    (updateTypeIndexTransform "chat1" "u" { id := "idx", references := none }).references =
      some
        [ { id := publicTypeIndex ++ "#" ++ "u"
            type := "TypeRegistration"
            forClass := ["LongChat"]
            instances := some ["chat1"] } ] := by
  constructor
  · have h := (updateTypeIndexTransform_spec "chat1" "u"
      { id := "idx",
        references := some
          [ { id := "r0", type := "TypeRegistration",
              forClass := ["LongChat"], instances := some ["chat0"] } ] }).1
      []
      { id := "r0", type := "TypeRegistration",
        forClass := ["LongChat"], instances := some ["chat0"] }
      [] rfl (by simp) (by decide)
    simpa using h
  · exact (updateTypeIndexTransform_spec "chat1" "u"
      { id := "idx", references := none }).2 rfl

/-! Helper lemmas for the day-bucketed log path. -/

theorem digitChar_injOn : ∀ a < 10, ∀ b < 10, Nat.digitChar a = Nat.digitChar b → a = b := by
  decide

theorem formatDate_inj (d1 d2 : CalDate)
    (h1y : d1.year < 10000) (h1m : d1.month < 100) (h1d : d1.day < 100)
    (h2y : d2.year < 10000) (h2m : d2.month < 100) (h2d : d2.day < 100)
    (h : formatDate d1 = formatDate d2) : d1 = d2 := by
  have hl : (formatDate d1).data = (formatDate d2).data := congrArg String.data h
  simp only [formatDate, pad4, pad2, List.cons_append, List.nil_append,
    List.cons.injEq, and_true] at hl
  obtain ⟨e1, e2, e3, e4, -, e5, e6, -, e7, e8⟩ := hl
  have m10 : ∀ n : Nat, n % 10 < 10 := fun n => Nat.mod_lt _ (by norm_num)
  have g1 := digitChar_injOn _ (m10 _) _ (m10 _) e1
  have g2 := digitChar_injOn _ (m10 _) _ (m10 _) e2
  have g3 := digitChar_injOn _ (m10 _) _ (m10 _) e3
  have g4 := digitChar_injOn _ (m10 _) _ (m10 _) e4
  have g5 := digitChar_injOn _ (m10 _) _ (m10 _) e5
  have g6 := digitChar_injOn _ (m10 _) _ (m10 _) e6
  have g7 := digitChar_injOn _ (m10 _) _ (m10 _) e7
  have g8 := digitChar_injOn _ (m10 _) _ (m10 _) e8
  obtain ⟨y1, m1, dd1⟩ := d1
  obtain ⟨y2, m2, dd2⟩ := d2
  simp only [CalDate.mk.injEq]
  simp only at g1 g2 g3 g4 g5 g6 g7 g8 h1y h1m h1d h2y h2m h2d
  omega

/-- C6: the MessageAppender computes the log document URI as
`<container-of-chat>/<YYYY/MM/DD>/chat.ttl`, which makes document
targeting idempotent per calendar date: for a given chat URI, the same
date always yields the same log document URI, distinct dates yield
distinct URIs, and the generated message identifier is that path
followed by `#msg-<uuid>`. -/
theorem chatFileUri_day_bucketing (chat : String) (d1 d2 : CalDate) (u : String)
    (h1y : d1.year < 10000) (h1m : d1.month < 100) (h1d : d1.day < 100)
    (h2y : d2.year < 10000) (h2m : d2.month < 100) (h2d : d2.day < 100) :
    (d1 = d2 → chatFileUri chat d1 = chatFileUri chat d2) ∧
    (chatFileUri chat d1 = chatFileUri chat d2 → d1 = d2) ∧
    messageIdOf chat d1 u = chatFileUri chat d1 ++ "#msg-" ++ u := by
  refine ⟨fun h => by rw [h], ?_, rfl⟩
  intro h
  have hl : (getContainer chat).data ++ ((formatDate d1).data ++ "/chat.ttl".data) =
      (getContainer chat).data ++ ((formatDate d2).data ++ "/chat.ttl".data) := by
    have := congrArg String.data h
    simpa [chatFileUri, String.data_append, List.append_assoc] using this
  have hmid : (formatDate d1).data ++ "/chat.ttl".data =
      (formatDate d2).data ++ "/chat.ttl".data := List.append_cancel_left hl
  have hfd : (formatDate d1).data = (formatDate d2).data := List.append_cancel_right hmid
  exact formatDate_inj d1 d2 h1y h1m h1d h2y h2m h2d (String.ext hfd)

/-- Witness for C6 at two concrete dates. -/
theorem chatFileUri_day_bucketing_witness :
    ((2024 : Nat) < 10000 ∧ (3 : Nat) < 100 ∧ (5 : Nat) < 100 ∧
     (2024 : Nat) < 10000 ∧ (3 : Nat) < 100 ∧ (6 : Nat) < 100) ∧
    ((CalDate.mk 2024 3 5 = CalDate.mk 2024 3 6 →
      chatFileUri "https://p.example/chats/c1#this" (CalDate.mk 2024 3 5) =
        chatFileUri "https://p.example/chats/c1#this" (CalDate.mk 2024 3 6)) ∧
     (chatFileUri "https://p.example/chats/c1#this" (CalDate.mk 2024 3 5) =
        chatFileUri "https://p.example/chats/c1#this" (CalDate.mk 2024 3 6) →
      CalDate.mk 2024 3 5 = CalDate.mk 2024 3 6) ∧
     messageIdOf "https://p.example/chats/c1#this" (CalDate.mk 2024 3 5) "u1" =
       chatFileUri "https://p.example/chats/c1#this" (CalDate.mk 2024 3 5)
         ++ "#msg-" ++ "u1") :=
  ⟨⟨by decide, by decide, by decide, by decide, by decide, by decide⟩,
   chatFileUri_day_bucketing "https://p.example/chats/c1#this"
     (CalDate.mk 2024 3 5) (CalDate.mk 2024 3 6) "u1"
     (by decide) (by decide) (by decide) (by decide) (by decide) (by decide)⟩

end SleepyBike
